import Mathlib

/-!
Shallow embedding of the `s3preup` Go package (files `s3.go`, `s3_test.go`).

The package wraps the AWS SDK v2 presigned-URL capability:

* `New` loads the default AWS configuration (with a region override),
  builds an S3 client and a presign client, and returns an `S3Provider`
  holding the bucket name and the presign client.
* `S3Provider.PresignedUploadURL` builds a `PutObjectInput` with only
  `Bucket` and `Key` set, passes an option function setting
  `PresignOptions.Expires`, calls `PresignPutObject` on the stored
  presign client, and returns the resulting URL or propagates the error.

The AWS SDK itself (configuration loading, client construction, and the
signing computation inside `PresignPutObject`) is an external collaborator:
it is embedded as function-valued fields (`AwsSdk`, `PresignClient`) so
theorems quantify over every possible collaborator behavior, exactly as the
Go code treats it (the test file substitutes a mock for the same interface).

Go conventions used by the embedding: a Go `(T, error)` return is a Lean
pair with an `Option GoErr` component; nil pointers/maps inside structs are
`none`; `time.Duration` (an int64 nanosecond count, only stored and
forwarded here) is `Int`; `context.Context` is an opaque token that is only
passed through.
-/

namespace S3Preup

/-- `context.Context`: opaque to this package, only forwarded. The `tag`
field merely makes distinct contexts representable. -/
structure GoContext where
  tag : Nat
  deriving DecidableEq

/-- A Go `error` value, as produced by `errors.New`. -/
structure GoErr where
  msg : String
  deriving DecidableEq

/-- `time.Duration`: an int64 count of nanoseconds; this package never
does arithmetic on it, it is only stored in `PresignOptions.Expires`. -/
abbrev Duration := Int

/-- `aws.Config` as returned by `config.LoadDefaultConfig`; this package
never inspects it, it is only handed to `s3.NewFromConfig`. -/
structure AwsConfig where
  region : String

/-- `s3.Client` as returned by `s3.NewFromConfig`; opaque to this package. -/
structure S3Client where
  cfg : AwsConfig

/-- `s3.PutObjectInput`: the fields this package could set. The Go struct
literal in `PresignedUploadURL` sets only `Bucket` and `Key`; all other
fields keep their Go zero value (nil pointer / nil map), embedded as
`none`. -/
structure PutObjectInput where
  Bucket : Option String := none
  Key : Option String := none
  ACL : Option String := none
  ContentLength : Option Int := none
  ContentType : Option String := none
  ChecksumCRC32 : Option String := none
  ChecksumSHA256 : Option String := none
  Metadata : Option (List (String × String)) := none
  deriving DecidableEq

/-- `s3.PresignOptions`: the only field this package touches is
`Expires`. -/
structure PresignOptions where
  Expires : Duration
  deriving DecidableEq

/-- `v4.PresignedHTTPRequest`: the SDK result; the package reads only
`URL`. -/
structure PresignedHTTPRequest where
  URL : String
  Method : String := ""
  SignedHeader : List (String × List String) := []
  deriving DecidableEq

/-- `s3.PresignClient`: the external signing collaborator. Its
`PresignPutObject` method receives the context, the request struct, and
the option function the caller passes (which the SDK applies to its
default options); it returns a presigned request or an error. -/
structure PresignClient where
  presignPutObject :
    GoContext → PutObjectInput → (PresignOptions → PresignOptions) →
      Except GoErr PresignedHTTPRequest

/-- `S3Provider`: bucket name plus the pre-configured presign client. -/
structure S3Provider where
  bucket : String
  presignClient : PresignClient

/-- The AWS SDK entry points `New` calls, bundled as a collaborator:
`config.LoadDefaultConfig ctx (config.WithRegion region)`,
`s3.NewFromConfig`, and `s3.NewPresignClient`. -/
structure AwsSdk where
  loadDefaultConfig : GoContext → String → Except GoErr AwsConfig
  newFromConfig : AwsConfig → S3Client
  newPresignClient : S3Client → PresignClient

/-- `New` from `s3.go`: load the default config with the region override;
on error return `(nil, err)`; otherwise build the clients and return the
provider holding the bucket and the presign client. -/
def New (sdk : AwsSdk) (ctx : GoContext) (bucket : String) (region : String) :
    Option S3Provider × Option GoErr :=
  match sdk.loadDefaultConfig ctx region with
  | Except.error e => (none, some e)
  | Except.ok cfg =>
      let s3Client := sdk.newFromConfig cfg
      let presignClient := sdk.newPresignClient s3Client
      (some { bucket := bucket, presignClient := presignClient }, none)

/-- The `&s3.PutObjectInput{Bucket: aws.String(p.bucket), Key:
aws.String(destination)}` literal from `PresignedUploadURL`. -/
def buildPutObjectInput (bucket : String) (destination : String) :
    PutObjectInput :=
  { Bucket := some bucket, Key := some destination }

/-- The option function `func(po *s3.PresignOptions) { po.Expires =
expires }` passed to `PresignPutObject`. -/
def expiresOptFn (expires : Duration) (po : PresignOptions) : PresignOptions :=
  { po with Expires := expires }

/-- `S3Provider.PresignedUploadURL` from `s3.go`: call `PresignPutObject`
on the stored client with the built input and the expiry option function;
on error return `("", err)`, otherwise return the request URL and nil
error. -/
def PresignedUploadURL (p : S3Provider) (ctx : GoContext)
    (destination : String) (expires : Duration) : String × Option GoErr :=
  match p.presignClient.presignPutObject ctx
      (buildPutObjectInput p.bucket destination) (expiresOptFn expires) with
  | Except.error e => ("", some e)
  | Except.ok presignedPutRequest => (presignedPutRequest.URL, none)

/-- The same method with the receiver state threaded explicitly: the Go
body contains no assignment to `p`'s fields, so each branch returns the
receiver it was given, paired with the `(string, error)` result. -/
def PresignedUploadURLSt (p : S3Provider) (ctx : GoContext)
    (destination : String) (expires : Duration) :
    S3Provider × (String × Option GoErr) :=
  match p.presignClient.presignPutObject ctx
      (buildPutObjectInput p.bucket destination) (expiresOptFn expires) with
  | Except.error e => (p, ("", some e))
  | Except.ok presignedPutRequest => (p, (presignedPutRequest.URL, none))

/-- A sequence of calls against one provider, threading the receiver
state, returning the final receiver state and the list of results. -/
def runCalls (p : S3Provider) :
    List (GoContext × String × Duration) →
      S3Provider × List (String × Option GoErr)
  | [] => (p, [])
  | call :: rest =>
      let step := PresignedUploadURLSt p call.1 call.2.1 call.2.2
      let tail := runCalls step.1 rest
      (tail.1, step.2 :: tail.2)

/-- The collaborator contract of the signing client (spec section 6:
"given bucket, key, and expiry, return a signed PUT URL or an error"):
every successful response is a non-empty URL containing the request's
bucket and key as substrings. -/
def SigningContract (c : PresignClient) : Prop :=
  ∀ ctx input optFn req,
    c.presignPutObject ctx input optFn = Except.ok req →
      req.URL ≠ "" ∧
      (∀ b, input.Bucket = some b → b.data <:+: req.URL.data) ∧
      (∀ k, input.Key = some k → k.data <:+: req.URL.data)

/-- Test double: a presign client that always fails with the test's
`errors.New("presign error")`. -/
def failingClient : PresignClient :=
  ⟨fun _ _ _ => Except.error ⟨"presign error"⟩⟩

/-- Test double from `s3_test.go`: a mock returning the fixed URL
`https://test-bucket.s3.amazonaws.com/uploads/test-file.txt`. -/
def mockClient : PresignClient :=
  ⟨fun _ _ _ =>
    Except.ok ⟨"https://test-bucket.s3.amazonaws.com/uploads/test-file.txt", "PUT", []⟩⟩

/-- A virtual-hosted style URL built from a request's bucket and key. -/
def mockURLFor (input : PutObjectInput) : String :=
  "https://" ++ input.Bucket.getD ("") ++ ".s3.amazonaws.com/" ++
    input.Key.getD ("")

/-- Test double: a presign client that answers every request with a URL
built from the request's own bucket and key. -/
def goodClient : PresignClient :=
  ⟨fun _ input _ => Except.ok ⟨mockURLFor input, "PUT", []⟩⟩

/-- Test double: an SDK whose configuration load succeeds and whose
presign client is `goodClient`. -/
def okSdk : AwsSdk :=
  ⟨fun _ region => Except.ok ⟨region⟩, fun cfg => ⟨cfg⟩, fun _ => goodClient⟩

/-- Test double: an SDK whose configuration load fails. -/
def badSdk : AwsSdk :=
  ⟨fun _ _ => Except.error ⟨"config error"⟩, fun cfg => ⟨cfg⟩,
    fun _ => goodClient⟩

/-- The provider `New okSdk` builds for bucket `test-bucket`. -/
def okProvider : S3Provider :=
  ⟨"test-bucket", goodClient⟩

theorem presignedUploadURLSt_fst (p : S3Provider) (ctx : GoContext)
    (destination : String) (expires : Duration) :
    (PresignedUploadURLSt p ctx destination expires).1 = p := by
  unfold PresignedUploadURLSt
  cases p.presignClient.presignPutObject ctx
      (buildPutObjectInput p.bucket destination) (expiresOptFn expires) <;> rfl

theorem runCalls_fst (calls : List (GoContext × String × Duration))
    (p : S3Provider) : (runCalls p calls).1 = p := by
  induction calls generalizing p with
  | nil => rfl
  | cons call rest ih =>
      simp only [runCalls]
      rw [presignedUploadURLSt_fst, ih]

theorem goodClient_contract : SigningContract goodClient := by
  intro ctx input optFn req h
  simp only [goodClient] at h
  cases h
  refine ⟨?_, ?_, ?_⟩
  · intro he
    have hd := congrArg String.data he
    simp [mockURLFor, String.data_append] at hd
  · intro b hb
    refine ⟨("https://").data, (".s3.amazonaws.com/" ++ input.Key.getD ("")).data, ?_⟩
    simp [mockURLFor, hb, String.data_append]
  · intro k hk
    refine ⟨("https://" ++ input.Bucket.getD ("") ++ ".s3.amazonaws.com/").data, [], ?_⟩
    simp [mockURLFor, hk, String.data_append]

/-- Claim C1: if the stored signing client's `PresignPutObject` returns an
error `e`, then `PresignedUploadURL` returns exactly `("", e)`: the error
is propagated unchanged and the URL is the empty string, with no retry,
wrapping or reclassification. -/
theorem presignedUploadURL_error_propagation (p : S3Provider)
    (ctx : GoContext) (destination : String) (expires : Duration)
    (e : GoErr)
    (h : p.presignClient.presignPutObject ctx
        (buildPutObjectInput p.bucket destination) (expiresOptFn expires) =
      Except.error e) :
    PresignedUploadURL p ctx destination expires = ("", some e) := by
  unfold PresignedUploadURL
  rw [h]

/-- Witness for C1: the test scenario — a client failing with
`errors.New("presign error")`, bucket `test-bucket`, key
`uploads/test-file.txt`, expiry 15 minutes — returns the empty string and
exactly that error. -/
theorem presignedUploadURL_error_propagation_witness :
    PresignedUploadURL ⟨"test-bucket", failingClient⟩ ⟨0⟩
        ("uploads/test-file.txt") (900000000000 : Duration) =
      ("", some ⟨"presign error"⟩) :=
  presignedUploadURL_error_propagation ⟨"test-bucket", failingClient⟩ ⟨0⟩
    ("uploads/test-file.txt") (900000000000 : Duration) ⟨"presign error"⟩ rfl

/-- Claim C2: if the stored signing client's `PresignPutObject` succeeds
with a presigned request, then `PresignedUploadURL` returns exactly that
request's URL string and no error. -/
theorem presignedUploadURL_success (p : S3Provider) (ctx : GoContext)
    (destination : String) (expires : Duration)
    (req : PresignedHTTPRequest)
    (h : p.presignClient.presignPutObject ctx
        (buildPutObjectInput p.bucket destination) (expiresOptFn expires) =
      Except.ok req) :
    PresignedUploadURL p ctx destination expires = (req.URL, none) := by
  unfold PresignedUploadURL
  rw [h]

/-- Witness for C2: the test scenario — bucket `test-bucket`, key
`uploads/test-file.txt`, expiry 15 minutes, mocked client returning
`https://test-bucket.s3.amazonaws.com/uploads/test-file.txt` — yields
exactly that string with no error. -/
theorem presignedUploadURL_success_witness :
    PresignedUploadURL ⟨"test-bucket", mockClient⟩ ⟨0⟩
        ("uploads/test-file.txt") (900000000000 : Duration) =
      ("https://test-bucket.s3.amazonaws.com/uploads/test-file.txt", none) :=
  presignedUploadURL_success ⟨"test-bucket", mockClient⟩ ⟨0⟩
    ("uploads/test-file.txt") (900000000000 : Duration)
    ⟨"https://test-bucket.s3.amazonaws.com/uploads/test-file.txt", "PUT", []⟩
    rfl

/-- Claim C3: when the signing client honors the collaborator contract
and `expires > 0`, every successful `PresignedUploadURL` call returns a
non-empty URL containing the provider's bucket and the given key as
substrings. -/
theorem presignedUploadURL_contains_bucket_key (p : S3Provider)
    (ctx : GoContext) (destination : String) (expires : Duration)
    (url : String) (_hexp : 0 < expires)
    (hc : SigningContract p.presignClient)
    (hok : PresignedUploadURL p ctx destination expires = (url, none)) :
    url ≠ "" ∧ p.bucket.data <:+: url.data ∧
      destination.data <:+: url.data := by
  unfold PresignedUploadURL at hok
  cases hcall : p.presignClient.presignPutObject ctx
      (buildPutObjectInput p.bucket destination) (expiresOptFn expires) with
  | error e => rw [hcall] at hok; simp at hok
  | ok req =>
      rw [hcall] at hok
      have hurl : req.URL = url := congrArg Prod.fst hok
      have hcont := hc ctx (buildPutObjectInput p.bucket destination)
        (expiresOptFn expires) req hcall
      rw [hurl] at hcont
      exact ⟨hcont.1, hcont.2.1 p.bucket rfl, hcont.2.2 destination rfl⟩

/-- Witness for C3: with `goodClient` (which honors the contract), bucket
`test-bucket`, key `uploads/test-file.txt` and a 15-minute expiry, the
returned URL is non-empty and contains bucket and key. -/
theorem presignedUploadURL_contains_bucket_key_witness :
    (0 : Duration) < (900000000000 : Duration) ∧
    SigningContract okProvider.presignClient ∧
    ("https://test-bucket.s3.amazonaws.com/uploads/test-file.txt" ≠ "" ∧
      ("test-bucket").data <:+:
        ("https://test-bucket.s3.amazonaws.com/uploads/test-file.txt").data ∧
      ("uploads/test-file.txt").data <:+:
        ("https://test-bucket.s3.amazonaws.com/uploads/test-file.txt").data) :=
  ⟨by decide, goodClient_contract,
    presignedUploadURL_contains_bucket_key okProvider ⟨0⟩
      ("uploads/test-file.txt") (900000000000 : Duration)
      ("https://test-bucket.s3.amazonaws.com/uploads/test-file.txt")
      (by decide) goodClient_contract rfl⟩

/-- Claim C4: no local validation or clamping — for every destination
string and every expiry duration (zero and negative included), the request
handed to the signing client carries exactly the destination as its `Key`,
the option function sets exactly the given expiry, and the call's result
is determined solely by the signing client's answer to those forwarded
arguments. -/
theorem presignedUploadURL_forwards_unvalidated (p : S3Provider)
    (ctx : GoContext) (destination : String) (expires : Duration) :
    (buildPutObjectInput p.bucket destination).Key = some destination ∧
    (∀ po : PresignOptions, (expiresOptFn expires po).Expires = expires) ∧
    PresignedUploadURL p ctx destination expires =
      (match p.presignClient.presignPutObject ctx
          (buildPutObjectInput p.bucket destination)
          (expiresOptFn expires) with
        | Except.error e => ("", some e)
        | Except.ok req => (req.URL, none)) :=
  ⟨rfl, fun _ => rfl, rfl⟩

/-- Claim C5: if the SDK's configuration load fails with error `e`, `New`
returns a nil provider together with exactly that error, unwrapped. -/
theorem New_config_error_propagation (sdk : AwsSdk) (ctx : GoContext)
    (bucket : String) (region : String) (e : GoErr)
    (h : sdk.loadDefaultConfig ctx region = Except.error e) :
    New sdk ctx bucket region = (none, some e) := by
  unfold New
  rw [h]

/-- Witness for C5: an SDK whose configuration load fails with
`config error` makes `New` return `(nil, that error)`. -/
theorem New_config_error_propagation_witness :
    New badSdk ⟨0⟩ ("test-bucket") ("us-east-1") =
      (none, some ⟨"config error"⟩) :=
  New_config_error_propagation badSdk ⟨0⟩ ("test-bucket") ("us-east-1")
    ⟨"config error"⟩ rfl

/-- Claim C6: a provider successfully built by `New` with bucket `b`
stores `b`; every call builds its upload request addressed to exactly the
stored bucket and the caller's key; and the stored state survives any
sequence of calls unchanged. -/
theorem New_bucket_invariant (sdk : AwsSdk) (ctx : GoContext)
    (b : String) (region : String) (p : S3Provider)
    (h : New sdk ctx b region = (some p, none)) :
    p.bucket = b ∧
    (∀ destination : String,
      (buildPutObjectInput p.bucket destination).Bucket = some b ∧
      (buildPutObjectInput p.bucket destination).Key = some destination) ∧
    (∀ calls : List (GoContext × String × Duration),
      (runCalls p calls).1 = p) := by
  have hb : p.bucket = b := by
    unfold New at h
    cases hload : sdk.loadDefaultConfig ctx region with
    | error e => rw [hload] at h; simp at h
    | ok cfg =>
        rw [hload] at h
        simp only [Prod.mk.injEq, Option.some.injEq] at h
        rw [← h.1]
  refine ⟨hb, ?_, fun calls => runCalls_fst calls p⟩
  intro destination
  exact ⟨by rw [buildPutObjectInput, hb], rfl⟩

/-- Witness for C6: `New okSdk` with bucket `test-bucket` yields
`okProvider`, which stores that bucket, addresses a request to it, and is
unchanged after a two-call sequence. -/
theorem New_bucket_invariant_witness :
    New okSdk ⟨0⟩ ("test-bucket") ("us-east-1") = (some okProvider, none) ∧
    okProvider.bucket = "test-bucket" ∧
    (buildPutObjectInput okProvider.bucket ("uploads/a.txt")).Bucket =
      some ("test-bucket") ∧
    (runCalls okProvider
      [(⟨0⟩, ("uploads/a.txt"), (60 : Duration)),
        (⟨1⟩, ("uploads/b.txt"), (-5 : Duration))]).1 = okProvider :=
  ⟨rfl,
    (New_bucket_invariant okSdk ⟨0⟩ ("test-bucket") ("us-east-1")
      okProvider rfl).1,
    ((New_bucket_invariant okSdk ⟨0⟩ ("test-bucket") ("us-east-1")
      okProvider rfl).2.1 ("uploads/a.txt")).1,
    (New_bucket_invariant okSdk ⟨0⟩ ("test-bucket") ("us-east-1")
      okProvider rfl).2.2 _⟩

/-- Claim C8: the provider is immutable — whether the call succeeds or
fails, the receiver after `PresignedUploadURL` has the same `bucket` and
`presignClient` fields, and the state-threaded method computes the same
result as the pure one. -/
theorem presignedUploadURL_frame (p : S3Provider) (ctx : GoContext)
    (destination : String) (expires : Duration) :
    (PresignedUploadURLSt p ctx destination expires).1.bucket = p.bucket ∧
    (PresignedUploadURLSt p ctx destination expires).1.presignClient =
      p.presignClient ∧
    (PresignedUploadURLSt p ctx destination expires).2 =
      PresignedUploadURL p ctx destination expires := by
  unfold PresignedUploadURLSt PresignedUploadURL
  cases p.presignClient.presignPutObject ctx
      (buildPutObjectInput p.bucket destination) (expiresOptFn expires) <;>
    exact ⟨rfl, rfl, rfl⟩

/-- Claim C9: the `PutObjectInput` handed to the signing client has only
`Bucket` and `Key` set; ACL, content length, content type, checksums and
metadata are all left at their nil zero value, and the call's result
depends only on the client's answer to that input. -/
theorem putObjectInput_only_bucket_key (p : S3Provider) (ctx : GoContext)
    (destination : String) (expires : Duration) :
    (buildPutObjectInput p.bucket destination).Bucket = some p.bucket ∧
    (buildPutObjectInput p.bucket destination).Key = some destination ∧
    (buildPutObjectInput p.bucket destination).ACL = none ∧
    (buildPutObjectInput p.bucket destination).ContentLength = none ∧
    (buildPutObjectInput p.bucket destination).ContentType = none ∧
    (buildPutObjectInput p.bucket destination).ChecksumCRC32 = none ∧
    (buildPutObjectInput p.bucket destination).ChecksumSHA256 = none ∧
    (buildPutObjectInput p.bucket destination).Metadata = none ∧
    PresignedUploadURL p ctx destination expires =
      (match p.presignClient.presignPutObject ctx
          (buildPutObjectInput p.bucket destination)
          (expiresOptFn expires) with
        | Except.error e => ("", some e)
        | Except.ok req => (req.URL, none)) :=
  ⟨rfl, rfl, rfl, rfl, rfl, rfl, rfl, rfl, rfl⟩

/-- Claim C10: `New` never validates the bucket — its error outcome is
the same for every bucket string (the empty string included), it succeeds
exactly when the configuration load succeeds, and on success the bucket
string is stored verbatim. -/
theorem New_no_bucket_validation (sdk : AwsSdk) (ctx : GoContext)
    (bucket : String) (region : String) :
    (New sdk ctx bucket region).2 = (New sdk ctx ("") region).2 ∧
    ((∃ p, (New sdk ctx bucket region).1 = some p) ↔
      (∃ cfg, sdk.loadDefaultConfig ctx region = Except.ok cfg)) ∧
    (∀ p, (New sdk ctx bucket region).1 = some p → p.bucket = bucket) := by
  unfold New
  cases hload : sdk.loadDefaultConfig ctx region with
  | error e =>
      refine ⟨rfl, ?_, ?_⟩
      · simp
      · intro p hp; simp at hp
  | ok cfg =>
      refine ⟨rfl, ?_, ?_⟩
      · simp
      · intro p hp
        simp only [Option.some.injEq] at hp
        rw [← hp]

/-- Witness for C10: with a succeeding SDK and the empty bucket string,
`New` succeeds and stores the empty bucket verbatim. -/
theorem New_no_bucket_validation_witness :
    (⟨"", goodClient⟩ : S3Provider).bucket = "" :=
  (New_no_bucket_validation okSdk ⟨0⟩ ("") ("us-east-1")).2.2
    ⟨"", goodClient⟩ rfl

end S3Preup
